import Mathlib

/-!
# Transaction-admission checks: shallow embedding

A shallow embedding of `crates/sui-transaction-checks/src/lib.rs` (module
`checked`): the data model and the checking functions the verified claims
refer to.  Object ids, addresses, digests and sequence numbers are modelled
as `Nat`; machine-integer overflow plays no role here (the source crate is
compiled with checked arithmetic, so an overflow aborts rather than wraps,
and none of the modelled computations performs arithmetic on untrusted
sums except the gas-balance sum, which in Rust is a checked u64 sum over
at most `max_input_objects` coin values).

Fallible Rust code returning `UserInputResult` / `SuiResult` is modelled
with `Except CheckError`; the one `assert_eq!` in `check_one_object`
(a fatal internal invariant violation, a panic in Rust) is modelled as the
distinguished error `CheckError.fatal`, kept apart from user-facing
`CheckError.user` errors.
-/

namespace SuiTx

abbrev ObjectID := Nat
abbrev SuiAddress := Nat
abbrev ObjectDigest := Nat
abbrev SequenceNumber := Nat
abbrev EpochId := Nat

/-- `SequenceNumber::MAX` (`u64::MAX`). -/
def SequenceNumber.MAX : SequenceNumber := 2 ^ 64 - 1

/-- A declared object reference `(id, version, digest)` (`ObjectRef`). -/
abbrev ObjectRef := ObjectID × SequenceNumber × ObjectDigest

/-- `SUI_CLOCK_OBJECT_ID` (`0x6`). -/
def SUI_CLOCK_OBJECT_ID : ObjectID := 6

/-- `SUI_AUTHENTICATOR_STATE_OBJECT_ID` (`0x7`). -/
def SUI_AUTHENTICATOR_STATE_OBJECT_ID : ObjectID := 7

/-- `SUI_CLOCK_OBJECT_SHARED_VERSION` (= 1). -/
def SUI_CLOCK_OBJECT_SHARED_VERSION : SequenceNumber := 1

/-- `Owner` from `sui-types`. -/
inductive Owner where
  | Immutable
  | AddressOwner (address : SuiAddress)
  | ObjectOwner (parent : ObjectID)
  | Shared (initial_shared_version : SequenceNumber)
deriving DecidableEq, Repr

def Owner.is_address_owned : Owner → Bool
  | .AddressOwner _ => true
  | _ => false

/-- An on-ledger object snapshot: identity, version, content digest, owner,
package/non-package discriminant, and (for gas admission) its coin balance. -/
structure Object where
  id : ObjectID
  version : SequenceNumber
  digest : ObjectDigest
  owner : Owner
  isPackage : Bool
  balance : Nat
deriving DecidableEq, Repr

def Object.is_package (o : Object) : Bool := o.isPackage

def Object.is_immutable (o : Object) : Bool := o.owner = Owner.Immutable

def Object.compute_object_reference (o : Object) : ObjectRef := (o.id, o.version, o.digest)

/-- `InputObjectKind`: how the transaction declares that it uses an input. -/
inductive InputObjectKind where
  | MovePackage (id : ObjectID)
  | ImmOrOwnedMoveObject (oref : ObjectRef)
  | SharedMoveObject (id : ObjectID) (initial_shared_version : SequenceNumber) (mutable : Bool)
deriving DecidableEq, Repr

def InputObjectKind.object_id : InputObjectKind → ObjectID
  | .MovePackage id => id
  | .ImmOrOwnedMoveObject (id, _, _) => id
  | .SharedMoveObject id _ _ => id

/-- `ObjectReadResultKind`: a resolved input is either a live object or the
tombstone of a deleted shared object (version and digest only). -/
inductive ObjectReadResultKind where
  | object (o : Object)
  | deletedSharedObject (version : SequenceNumber) (digest : ObjectDigest)
deriving DecidableEq, Repr

/-- `ObjectReadResult`: a declared kind paired with the resolved state. -/
structure ObjectReadResult where
  input_object_kind : InputObjectKind
  object : ObjectReadResultKind
deriving DecidableEq, Repr

def ObjectReadResult.id (o : ObjectReadResult) : ObjectID := o.input_object_kind.object_id

def ObjectReadResult.as_object : ObjectReadResult → Option Object
  | ⟨_, .object o⟩ => some o
  | ⟨_, .deletedSharedObject _ _⟩ => none

/-- Modelled from the spec: `ObjectReadResult::is_mutable` lives in `sui-types`
(not under `src/`).  Per the spec an input is mutable when it is an
owned input whose object is not immutable, or a shared input declared with
`mutable = true`; packages are never mutable.  The owned/deleted combination
is unreachable in the source and taken as not mutable. -/
def ObjectReadResult.is_mutable (o : ObjectReadResult) : Bool :=
  match o.input_object_kind, o.object with
  | .MovePackage _, _ => false
  | .ImmOrOwnedMoveObject _, .object obj => ! obj.is_immutable
  | .ImmOrOwnedMoveObject _, .deletedSharedObject _ _ => false
  | .SharedMoveObject _ _ mutable, _ => mutable

/-- `InputObjects`: the ordered resolved input collection of one transaction. -/
abbrev InputObjects := List ObjectReadResult

/-- Modelled from the spec: a programmable transaction's publication payload,
abstracted to the meter costs of the non-system modules being published
(`pt.non_system_packages_to_be_published()` yields their bytecode; the
bytecode verifier's meter, external to `src/`, consumes a deterministic
unit count per module, here the listed cost). -/
structure ProgrammableTransaction where
  non_system_packages_to_be_published : List Nat
deriving DecidableEq, Repr

/-- `TransactionKind`: programmable, or one of the system kinds. -/
inductive TransactionKind where
  | ProgrammableTransaction (pt : ProgrammableTransaction)
  | Genesis
  | ConsensusCommitPrologue
  | ChangeEpoch
deriving DecidableEq, Repr

/-- Every kind except a programmable transaction is a system transaction. -/
def TransactionKind.is_system_tx : TransactionKind → Bool
  | .ProgrammableTransaction _ => false
  | _ => true

/-- Gas data of a transaction: payment coins, gas owner (sponsor), price, budget. -/
structure GasData where
  payment : List ObjectRef
  owner : SuiAddress
  price : Nat
  budget : Nat
deriving DecidableEq, Repr

/-- The slice of `TransactionData` the checks read. -/
structure TransactionData where
  kind : TransactionKind
  sender : SuiAddress
  gas_data : GasData
deriving DecidableEq, Repr

def TransactionData.gas (t : TransactionData) : List ObjectRef := t.gas_data.payment

def TransactionData.gas_owner (t : TransactionData) : SuiAddress := t.gas_data.owner

def TransactionData.gas_price (t : TransactionData) : Nat := t.gas_data.price

def TransactionData.gas_budget (t : TransactionData) : Nat := t.gas_data.budget

def TransactionData.is_system_tx (t : TransactionData) : Bool := t.kind.is_system_tx

def TransactionData.is_genesis_tx (t : TransactionData) : Bool := t.kind = TransactionKind.Genesis

/-- The protocol-configuration fields the checks read. -/
structure ProtocolConfig where
  max_input_objects : Nat
  max_gas_price : Nat
  max_tx_gas : Nat
  base_tx_cost_fixed : Nat
  max_verifier_meter_budget : Nat
deriving DecidableEq, Repr

/-- The `UserInputError` variants produced by this crate.  Formatted Rust
messages are carried as fixed strings where no claim depends on them. -/
inductive UserInputError where
  | SizeLimitExceeded (limit value : String)
  | MutableObjectUsedMoreThanOnce (object_id : ObjectID)
  | ObjectNotFound (object_id : ObjectID) (version : Option SequenceNumber)
  | InvalidSequenceNumber
  | ObjectVersionUnavailableForConsumption (provided_obj_ref : ObjectRef)
      (current_version : SequenceNumber)
  | MovePackageAsObject (object_id : ObjectID)
  | MoveObjectAsPackage (object_id : ObjectID)
  | InvalidObjectDigest (object_id : ObjectID) (expected_digest : ObjectDigest)
  | IncorrectUserSignature (error : String)
  | InvalidChildObjectArgument (child_id : ObjectID) (parent_id : ObjectID)
  | NotSharedObjectError
  | SharedObjectStartingVersionMismatch
  | ImmutableParameterExpectedError (object_id : ObjectID)
  | InaccessibleSystemObject (object_id : ObjectID)
  | MutableParameterExpected (object_id : ObjectID)
  | DuplicateObjectRefInput
  | ObjectInputArityViolation
  | Unsupported (msg : String)
  | PackageVerificationTimedout (err : String)
  | GasPriceUnderRGP
  | GasPriceTooHigh
  | GasBudgetTooHigh
  | GasBudgetTooLow
  | GasBalanceTooLow
deriving DecidableEq, Repr

/-- The two failure channels of the layer: reportable user errors and the
fatal internal-invariant channel (a panic in the Rust source). -/
inductive CheckError where
  | user (e : UserInputError)
  | fatal (msg : String)
deriving DecidableEq, Repr

/-- `check_input_objects`: the input-count limit. -/
def check_input_objects (objects : InputObjects) (protocol_config : ProtocolConfig) :
    Except CheckError Unit :=
  if objects.length ≤ protocol_config.max_input_objects then .ok ()
  else
    .error (.user (.SizeLimitExceeded "maximum input objects in a transaction"
      (toString protocol_config.max_input_objects)))

/-- `check_one_object`: per-object ownership/consistency dispatch on the
declared kind.  The Rust `assert_eq!` on the fetched version becomes the
fatal channel; the Clock arm is the literal pattern
`{ id: SUI_CLOCK_OBJECT_ID, initial_shared_version: SUI_CLOCK_OBJECT_SHARED_VERSION, mutable: true }`
and the AuthenticatorState arm matches any shared declaration with that id. -/
def check_one_object (owner : SuiAddress) (object_kind : InputObjectKind) (object : Object)
    (system_transaction : Bool) : Except CheckError Unit :=
  match object_kind with
  | .MovePackage package_id =>
    if object.is_package then .ok ()
    else .error (.user (.MoveObjectAsPackage package_id))
  | .ImmOrOwnedMoveObject (object_id, sequence_number, object_digest) =>
    if object.is_package then .error (.user (.MovePackageAsObject object_id))
    else if ¬ sequence_number < SequenceNumber.MAX then
      .error (.user .InvalidSequenceNumber)
    else if object.version ≠ sequence_number then
      .error (.fatal "The fetched object version does not match the requested version")
    else if object.digest ≠ object_digest then
      .error (.user (.InvalidObjectDigest object_id object.digest))
    else
      match object.owner with
      | .Immutable => .ok ()
      | .AddressOwner actual_owner =>
        if owner = actual_owner then .ok ()
        else
          .error (.user (.IncorrectUserSignature
            "Object is owned by an account address different from the given owner/signer address"))
      | .ObjectOwner parent => .error (.user (.InvalidChildObjectArgument object.id parent))
      | .Shared _ => .error (.user .NotSharedObjectError)
  | .SharedMoveObject id initial_shared_version mutable =>
    if id = SUI_CLOCK_OBJECT_ID ∧ initial_shared_version = SUI_CLOCK_OBJECT_SHARED_VERSION ∧
        mutable = true then
      if system_transaction then .ok ()
      else .error (.user (.ImmutableParameterExpectedError SUI_CLOCK_OBJECT_ID))
    else if id = SUI_AUTHENTICATOR_STATE_OBJECT_ID then
      if system_transaction then .ok ()
      else .error (.user (.InaccessibleSystemObject SUI_AUTHENTICATOR_STATE_OBJECT_ID))
    else if ¬ object.version < SequenceNumber.MAX then
      .error (.user .InvalidSequenceNumber)
    else
      match object.owner with
      | .AddressOwner _ => .error (.user .NotSharedObjectError)
      | .ObjectOwner _ => .error (.user .NotSharedObjectError)
      | .Immutable => .error (.user .NotSharedObjectError)
      | .Shared actual_initial_shared_version =>
        if initial_shared_version = actual_initial_shared_version then .ok ()
        else .error (.user .SharedObjectStartingVersionMismatch)

/-- The first loop of `check_objects`: no mutable input id may repeat
(the `used_objects : HashSet<SuiAddress>` accumulator). -/
def check_mutable_once (used_objects : List SuiAddress) : InputObjects → Except CheckError Unit
  | [] => .ok ()
  | object :: rest =>
    if object.is_mutable then
      if used_objects.contains object.id then
        .error (.user (.MutableObjectUsedMoreThanOnce object.id))
      else check_mutable_once (object.id :: used_objects) rest
    else check_mutable_once used_objects rest

/-- The expected-owner selection inside `check_objects`: a gas coin is owned
by the gas owner, every other input by the sender. -/
def owner_address_for (transaction : TransactionData) (object : Object) : SuiAddress :=
  if transaction.gas.any (fun obj_ref => obj_ref.1 = object.id) then transaction.gas_owner
  else transaction.sender

/-- The second loop of `check_objects`: dispatch each present object to
`check_one_object`; a deleted shared object is only recorded (the record is
not consumed afterwards) and skipped. -/
def check_each_object (transaction : TransactionData) : InputObjects → Except CheckError Unit
  | [] => .ok ()
  | object :: rest =>
    match object.object with
    | .object obj =>
      match check_one_object (owner_address_for transaction obj) object.input_object_kind obj
          transaction.is_system_tx with
      | .error e => .error e
      | .ok _ => check_each_object transaction rest
    | .deletedSharedObject _ _ => check_each_object transaction rest

/-- `check_objects`: mutable-uniqueness loop, then the non-empty-input rule
(genesis excepted), then the per-object ownership/consistency loop. -/
def check_objects (transaction : TransactionData) (objects : InputObjects) :
    Except CheckError Unit :=
  match check_mutable_once [] objects with
  | .error e => .error e
  | .ok _ =>
    if ! transaction.is_genesis_tx && objects.isEmpty then
      .error (.user .ObjectInputArityViolation)
    else check_each_object transaction objects

/-- The external object/marker store capabilities used by the checks:
`get(id)` and `has_been_received(id, version, epoch)`.  Store-side failures
(`SuiResult` transport errors) are outside the modelled contract. -/
structure Store where
  get_object : ObjectID → Option Object
  have_received_object_at_version : ObjectID → SequenceNumber → EpochId → Bool

/-- The per-reference body of the `check_receiving_objects` loop (everything
except the duplicate-id bookkeeping): sentinel bound, fast-path acceptance
for a live address-owned exact match, replay-marker acceptance, then the
rejection classification. -/
def check_one_receiving (store : Store) (epoch_id : EpochId) (r : ObjectRef) :
    Except CheckError Unit :=
  match r with
  | (object_id, version, object_digest) =>
    if ¬ version < SequenceNumber.MAX then .error (.user .InvalidSequenceNumber)
    else
      let object := store.get_object object_id
      let fast_path : Bool :=
        match object with
        | some x => x.owner.is_address_owned && (x.version == version) &&
            (x.digest == object_digest)
        | none => false
      if fast_path || store.have_received_object_at_version object_id version epoch_id then
        .ok ()
      else
        match object with
        | none => .error (.user (.ObjectNotFound object_id (some version)))
        | some object =>
          if object.version ≠ version then
            .error (.user (.ObjectVersionUnavailableForConsumption
              (object_id, version, object_digest) object.version))
          else if object.is_package then .error (.user (.MovePackageAsObject object_id))
          else if object.digest ≠ object_digest then
            .error (.user (.InvalidObjectDigest object_id object.digest))
          else
            match object.owner with
            | .AddressOwner _ =>
              -- Defensive fail-closed branch: the fast path above must have
              -- accepted an address-owned exact match, so reject as not found.
              .error (.user (.ObjectNotFound object_id (some version)))
            | .ObjectOwner owner =>
              .error (.user (.InvalidChildObjectArgument object.id owner))
            | .Shared _ => .error (.user .NotSharedObjectError)
            | .Immutable => .error (.user (.MutableParameterExpected object_id))

/-- The `check_receiving_objects` loop: per-reference checks, then the
duplicate-coincidence check against the accumulated `objects_in_txn` set. -/
def check_receiving_loop (store : Store) (epoch_id : EpochId) :
    List ObjectID → List ObjectRef → Except CheckError Unit
  | _, [] => .ok ()
  | objects_in_txn, r :: rest =>
    match check_one_receiving store epoch_id r with
    | .error e => .error e
    | .ok _ =>
      if objects_in_txn.contains r.1 then .error (.user .DuplicateObjectRefInput)
      else check_receiving_loop store epoch_id (r.1 :: objects_in_txn) rest

/-- `check_receiving_objects` (signing path only): combined size limit, then
the per-reference loop seeded with the ids of all declared input kinds. -/
def check_receiving_objects (store : Store) (receiving_objects : List ObjectRef)
    (input_objects : InputObjects) (protocol_config : ProtocolConfig) (epoch_id : EpochId) :
    Except CheckError Unit :=
  if ¬ receiving_objects.length + input_objects.length ≤ protocol_config.max_input_objects then
    .error (.user (.SizeLimitExceeded
      "maximum input and receiving objects in a transaction"
      (toString protocol_config.max_input_objects)))
  else
    check_receiving_loop store epoch_id
      (input_objects.map fun o => o.input_object_kind.object_id) receiving_objects

/-- `SuiGasStatus`: unmetered (system transactions) or metered. -/
inductive SuiGasStatus where
  | unmetered
  | metered (gas_budget gas_price : Nat)
deriving DecidableEq, Repr

def SuiGasStatus.new_unmetered : SuiGasStatus := .unmetered

/-- Modelled from the spec: `SuiGasStatus::new` lives in `sui-types` (not under
`src/`).  Per the spec it fails when the gas price or budget violate the
protocol bounds and otherwise produces a metered status; it never reports
a missing object. -/
def SuiGasStatus.new (gas_budget gas_price reference_gas_price : Nat)
    (protocol_config : ProtocolConfig) : Except CheckError SuiGasStatus :=
  if gas_price < reference_gas_price then .error (.user .GasPriceUnderRGP)
  else if protocol_config.max_gas_price < gas_price then .error (.user .GasPriceTooHigh)
  else if protocol_config.max_tx_gas < gas_budget then .error (.user .GasBudgetTooHigh)
  else if gas_budget < protocol_config.base_tx_cost_fixed then .error (.user .GasBudgetTooLow)
  else .ok (.metered gas_budget gas_price)

/-- The coin balance a resolved input contributes to gas. -/
def gas_balance (o : ObjectReadResult) : Nat :=
  match o.object with
  | .object obj => obj.balance
  | .deletedSharedObject _ _ => 0

/-- Modelled from the spec: `SuiGasStatus::check_gas_balance` lives in
`sui-types` (not under `src/`).  Per the spec the combined balance of the
resolved gas coins must cover the budget; it never reports a missing object. -/
def check_gas_balance (gas_objects : List ObjectReadResult) (gas_budget : Nat) :
    Except CheckError Unit :=
  if gas_budget ≤ (gas_objects.map gas_balance).sum then .ok ()
  else .error (.user .GasBalanceTooLow)

/-- The `BTreeMap` built by `check_gas` keyed on each input's id; with
duplicate ids the later insertion wins, hence the lookup on the reversed list. -/
def objects_by_id (objects : InputObjects) (id : ObjectID) : Option ObjectReadResult :=
  objects.reverse.find? fun o => o.id == id

/-- The gas-coin resolution loop of `check_gas`: each declared ref is looked
up by id in the input map; the first miss is `ObjectNotFound` carrying the
declared version. -/
def resolve_gas_objects (objects : InputObjects) :
    List ObjectRef → Except CheckError (List ObjectReadResult)
  | [] => .ok []
  | (object_id, version, _) :: rest =>
    match objects_by_id objects object_id with
    | none => .error (.user (.ObjectNotFound object_id (some version)))
    | some o =>
      match resolve_gas_objects objects rest with
      | .error e => .error e
      | .ok t => .ok (o :: t)

/-- `check_gas`: a system transaction gets the unmetered status at once;
otherwise build the metered status, resolve the declared gas coins by id,
and check the combined balance. -/
def check_gas (objects : InputObjects) (protocol_config : ProtocolConfig)
    (reference_gas_price : Nat) (gas : List ObjectRef) (gas_budget gas_price : Nat)
    (tx_kind : TransactionKind) : Except CheckError SuiGasStatus :=
  if tx_kind.is_system_tx then .ok SuiGasStatus.new_unmetered
  else
    match SuiGasStatus.new gas_budget gas_price reference_gas_price protocol_config with
    | .error e => .error e
    | .ok gas_status =>
      match resolve_gas_objects objects gas with
      | .error e => .error e
      | .ok gas_objects =>
        match check_gas_balance gas_objects gas_budget with
        | .error e => .error e
        | .ok _ => .ok gas_status

/-- `get_gas_status`: the gas entry point, delegating to `check_gas` with the
transaction's budget, price and kind. -/
def get_gas_status (objects : InputObjects) (gas : List ObjectRef)
    (protocol_config : ProtocolConfig) (reference_gas_price : Nat)
    (transaction : TransactionData) : Except CheckError SuiGasStatus :=
  check_gas objects protocol_config reference_gas_price gas transaction.gas_budget
    transaction.gas_price transaction.kind

/-- The uniqueness loop of `check_dev_inspect_input`: present objects that are
not immutable may not repeat an id; deleted inputs are skipped. -/
def check_dev_inspect_loop (used_objects : List SuiAddress) :
    InputObjects → Except CheckError Unit
  | [] => .ok ()
  | input_object :: rest =>
    match input_object.as_object with
    | none => check_dev_inspect_loop used_objects rest
    | some object =>
      if object.is_immutable then check_dev_inspect_loop used_objects rest
      else if used_objects.contains object.id then
        .error (.user (.MutableObjectUsedMoreThanOnce object.id))
      else check_dev_inspect_loop (object.id :: used_objects) rest

/-- `check_dev_inspect_input`.  `TransactionKind::validity_check` lives in
`sui-types` (not under `src/`) and the spec does not fix its rules, so it is
taken as an explicit parameter; everything after it follows the source:
reject system kinds as unsupported, size limit, the uniqueness loop, then
append the supplied gas object as an owned input. -/
def check_dev_inspect_input
    (validity_check : ProtocolConfig → TransactionKind → Except CheckError Unit)
    (config : ProtocolConfig) (kind : TransactionKind) (input_objects : InputObjects)
    (gas_object : Object) : Except CheckError (ObjectRef × InputObjects) :=
  let gas_object_ref := gas_object.compute_object_reference
  match validity_check config kind with
  | .error e => .error e
  | .ok _ =>
    if kind.is_system_tx then
      .error (.user (.Unsupported "Transaction kind is not supported in dev-inspect"))
    else
      match check_input_objects input_objects config with
      | .error e => .error e
      | .ok _ =>
        match check_dev_inspect_loop [] input_objects with
        | .error e => .error e
        | .ok _ =>
          .ok (gas_object_ref,
            input_objects ++ [⟨.ImmOrOwnedMoveObject gas_object_ref, .object gas_object⟩])

/-- The two latency observations of the metering gate, counted per call. -/
structure VerifierMetrics where
  success_latency_observations : Nat
  timeout_latency_observations : Nat
deriving DecidableEq, Repr

/-- Modelled from the spec: `meter_module_bytes` of the bytecode verifier
(external to `src/`) consumes one module's deterministic meter cost from the
single remaining budget shared by the whole call, failing once exceeded. -/
def meter_module_bytes (remaining cost : Nat) : Except String Nat :=
  if cost ≤ remaining then .ok (remaining - cost)
  else .error "verification meter budget exceeded"

/-- The `try_for_each` over all non-system modules being published, threading
the one shared meter budget. -/
def meter_modules (remaining : Nat) : List Nat → Except String Nat
  | [] => .ok remaining
  | m :: rest =>
    match meter_module_bytes remaining m with
    | .error e => .error e
    | .ok r => meter_modules r rest

/-- `check_non_system_packages_to_be_published`: skipped for system
transactions; otherwise a single metered pass over the programmable
transaction's non-system publication payload, recording exactly one
success observation on success and exactly one timeout observation on
failure (the timer output is redirected, never both). -/
def check_non_system_packages_to_be_published (transaction : TransactionData)
    (protocol_config : ProtocolConfig) : Except CheckError Unit × VerifierMetrics :=
  if transaction.is_system_tx then (.ok (), ⟨0, 0⟩)
  else
    match transaction.kind with
    | .ProgrammableTransaction pt =>
      match meter_modules protocol_config.max_verifier_meter_budget
          pt.non_system_packages_to_be_published with
      | .ok _ => (.ok (), ⟨1, 0⟩)
      | .error e => (.error (.user (.PackageVerificationTimedout e)), ⟨0, 1⟩)
    | _ => (.ok (), ⟨0, 0⟩)

/-! ## Helper lemmas -/

theorem check_mutable_once_mem_error (c : ObjectReadResult)
    (hm : c.is_mutable = true) :
    ∀ (l : InputObjects) (used : List SuiAddress), c ∈ l → c.id ∈ used →
      ∃ i, check_mutable_once used l = .error (.user (.MutableObjectUsedMoreThanOnce i)) := by
  intro l
  induction l with
  | nil => intro used hc _; cases hc
  | cons o rest ih =>
    intro used hc hu
    by_cases hom : o.is_mutable = true
    · by_cases hoc : o.id ∈ used
      · exact ⟨o.id, by simp [check_mutable_once, hom, hoc]⟩
      · rcases List.mem_cons.mp hc with rfl | hrest
        · exact absurd hu hoc
        · obtain ⟨i, hi⟩ := ih (o.id :: used) hrest (List.mem_cons_of_mem _ hu)
          exact ⟨i, by simp [check_mutable_once, hom, hoc, hi]⟩
    · rcases List.mem_cons.mp hc with rfl | hrest
      · exact absurd hm hom
      · obtain ⟨i, hi⟩ := ih used hrest hu
        exact ⟨i, by simp [check_mutable_once, hom, hi]⟩

theorem check_mutable_once_dup_error (a b : ObjectReadResult)
    (hma : a.is_mutable = true) (hmb : b.is_mutable = true) (hid : a.id = b.id) :
    ∀ (l₁ : InputObjects) (used : List SuiAddress) (l₂ l₃ : InputObjects),
      ∃ i, check_mutable_once used (l₁ ++ a :: (l₂ ++ b :: l₃)) =
        .error (.user (.MutableObjectUsedMoreThanOnce i)) := by
  intro l₁
  induction l₁ with
  | nil =>
    intro used l₂ l₃
    by_cases hc : a.id ∈ used
    · exact ⟨a.id, by simp [check_mutable_once, hma, hc]⟩
    · obtain ⟨i, hi⟩ := check_mutable_once_mem_error b hmb (l₂ ++ b :: l₃) (a.id :: used)
        (by simp) (by simp [hid])
      exact ⟨i, by simp [check_mutable_once, hma, hc, hi]⟩
  | cons o l₁ ih =>
    intro used l₂ l₃
    by_cases hom : o.is_mutable = true
    · by_cases hoc : o.id ∈ used
      · exact ⟨o.id, by simp [check_mutable_once, hom, hoc]⟩
      · obtain ⟨i, hi⟩ := ih (o.id :: used) l₂ l₃
        exact ⟨i, by simp [check_mutable_once, hom, hoc, hi]⟩
    · obtain ⟨i, hi⟩ := ih used l₂ l₃
      exact ⟨i, by simp [check_mutable_once, hom, hi]⟩

theorem check_objects_of_mutable_once_error (tx : TransactionData) (objects : InputObjects)
    (e : CheckError) (h : check_mutable_once [] objects = .error e) :
    check_objects tx objects = .error e := by
  simp [check_objects, h]

theorem check_objects_ok_each (tx : TransactionData) (objects : InputObjects)
    (h : check_objects tx objects = .ok ()) :
    check_each_object tx objects = .ok () := by
  simp only [check_objects] at h
  cases hm : check_mutable_once [] objects with
  | error e => rw [hm] at h; cases h
  | ok u =>
    rw [hm] at h
    by_cases hg : (! tx.is_genesis_tx && objects.isEmpty) = true
    · rw [if_pos hg] at h; cases h
    · rwa [if_neg hg] at h

theorem check_each_object_ok (tx : TransactionData) :
    ∀ (l : InputObjects), check_each_object tx l = .ok () →
      ∀ o ∈ l, ∀ obj, o.object = .object obj →
        check_one_object (owner_address_for tx obj) o.input_object_kind obj
          tx.is_system_tx = .ok () := by
  intro l
  induction l with
  | nil => intro _ o ho; cases ho
  | cons a rest ih =>
    intro h o ho obj hobj
    simp only [check_each_object] at h
    split at h
    · rename_i aobj ha
      split at h
      · cases h
      · rename_i v hres
        rcases List.mem_cons.mp ho with rfl | hrest
        · have hobj' : aobj = obj := by
            rw [ha] at hobj
            injection hobj
          cases v
          rw [← hobj']
          exact hres
        · exact ih h o hrest obj hobj
    · rename_i ver dig ha
      rcases List.mem_cons.mp ho with rfl | hrest
      · rw [ha] at hobj; cases hobj
      · exact ih h o hrest obj hobj

theorem check_receiving_loop_error_of_mem_seen (store : Store) (epoch : EpochId) :
    ∀ (refs : List ObjectRef) (seen : List ObjectID) (r : ObjectRef),
      r ∈ refs → r.1 ∈ seen →
      ∃ e, check_receiving_loop store epoch seen refs = .error e := by
  intro refs
  induction refs with
  | nil => intro seen r hr; cases hr
  | cons q rest ih =>
    intro seen r hr hseen
    cases hq : check_one_receiving store epoch q with
    | error e => exact ⟨e, by simp [check_receiving_loop, hq]⟩
    | ok u =>
      cases u
      by_cases hc : q.1 ∈ seen
      · exact ⟨.user .DuplicateObjectRefInput, by simp [check_receiving_loop, hq, hc]⟩
      · rcases List.mem_cons.mp hr with rfl | hrest
        · exact absurd hseen hc
        · obtain ⟨e, he⟩ := ih (q.1 :: seen) r hrest (List.mem_cons_of_mem _ hseen)
          exact ⟨e, by simp [check_receiving_loop, hq, hc, he]⟩

theorem check_receiving_loop_dup_exact (store : Store) (epoch : EpochId) :
    ∀ (refs : List ObjectRef) (seen : List ObjectID) (r : ObjectRef),
      (∀ q ∈ refs, check_one_receiving store epoch q = .ok ()) →
      r ∈ refs → r.1 ∈ seen →
      check_receiving_loop store epoch seen refs = .error (.user .DuplicateObjectRefInput) := by
  intro refs
  induction refs with
  | nil => intro seen r _ hr; cases hr
  | cons q rest ih =>
    intro seen r hok hr hseen
    have hq := hok q (by simp)
    by_cases hc : q.1 ∈ seen
    · simp [check_receiving_loop, hq, hc]
    · rcases List.mem_cons.mp hr with rfl | hrest
      · exact absurd hseen hc
      · have hrec := ih (q.1 :: seen) r (fun p hp => hok p (by simp [hp])) hrest
          (List.mem_cons_of_mem _ hseen)
        simp [check_receiving_loop, hq, hc, hrec]

theorem check_receiving_loop_pair_error (store : Store) (epoch : EpochId)
    (a b : ObjectRef) (hid : a.1 = b.1) :
    ∀ (l₁ : List ObjectRef) (seen : List ObjectID) (l₂ l₃ : List ObjectRef),
      ∃ e, check_receiving_loop store epoch seen (l₁ ++ a :: (l₂ ++ b :: l₃)) = .error e := by
  intro l₁
  induction l₁ with
  | nil =>
    intro seen l₂ l₃
    cases ha : check_one_receiving store epoch a with
    | error e => exact ⟨e, by simp [check_receiving_loop, ha]⟩
    | ok u =>
      cases u
      by_cases hc : a.1 ∈ seen
      · exact ⟨.user .DuplicateObjectRefInput, by simp [check_receiving_loop, ha, hc]⟩
      · obtain ⟨e, he⟩ := check_receiving_loop_error_of_mem_seen store epoch (l₂ ++ b :: l₃)
          (a.1 :: seen) b (by simp) (by simp [hid])
        exact ⟨e, by simp [check_receiving_loop, ha, hc, he]⟩
  | cons q l₁ ih =>
    intro seen l₂ l₃
    cases hq : check_one_receiving store epoch q with
    | error e => exact ⟨e, by simp [check_receiving_loop, hq]⟩
    | ok u =>
      cases u
      by_cases hc : q.1 ∈ seen
      · exact ⟨.user .DuplicateObjectRefInput, by simp [check_receiving_loop, hq, hc]⟩
      · obtain ⟨e, he⟩ := ih (q.1 :: seen) l₂ l₃
        exact ⟨e, by simp [check_receiving_loop, hq, hc, he]⟩

theorem check_receiving_loop_digest_irrelevant (store : Store) (epoch : EpochId)
    (id : ObjectID) (v : SequenceNumber) (d d' : ObjectDigest)
    (hok : ∀ dd, check_one_receiving store epoch (id, v, dd) = .ok ()) :
    ∀ (pre : List ObjectRef) (seen : List ObjectID) (post : List ObjectRef),
      check_receiving_loop store epoch seen (pre ++ (id, v, d) :: post) =
        check_receiving_loop store epoch seen (pre ++ (id, v, d') :: post) := by
  intro pre
  induction pre with
  | nil =>
    intro seen post
    simp [check_receiving_loop, hok d, hok d']
  | cons q pre ih =>
    intro seen post
    cases hq : check_one_receiving store epoch q with
    | error e => simp [check_receiving_loop, hq]
    | ok u =>
      cases u
      by_cases hc : q.1 ∈ seen
      · simp [check_receiving_loop, hq, hc]
      · simp [check_receiving_loop, hq, hc, ih]

theorem check_dev_inspect_loop_mem_error (c : ObjectReadResult) (x : Object)
    (ho : c.as_object = some x) (him : x.is_immutable = false) :
    ∀ (l : InputObjects) (used : List SuiAddress), c ∈ l → x.id ∈ used →
      ∃ i, check_dev_inspect_loop used l = .error (.user (.MutableObjectUsedMoreThanOnce i)) := by
  intro l
  induction l with
  | nil => intro used hc _; cases hc
  | cons o rest ih =>
    intro used hc hu
    cases hoo : o.as_object with
    | none =>
      rcases List.mem_cons.mp hc with rfl | hrest
      · rw [hoo] at ho; cases ho
      · obtain ⟨i, hi⟩ := ih used hrest hu
        exact ⟨i, by simp [check_dev_inspect_loop, hoo, hi]⟩
    | some y =>
      by_cases hyim : y.is_immutable = true
      · rcases List.mem_cons.mp hc with rfl | hrest
        · rw [hoo] at ho
          injection ho with ho
          rw [ho] at hyim
          rw [hyim] at him
          cases him
        · obtain ⟨i, hi⟩ := ih used hrest hu
          exact ⟨i, by simp [check_dev_inspect_loop, hoo, hyim, hi]⟩
      · by_cases hyc : y.id ∈ used
        · exact ⟨y.id, by simp [check_dev_inspect_loop, hoo, hyim, hyc]⟩
        · rcases List.mem_cons.mp hc with rfl | hrest
          · rw [hoo] at ho
            injection ho with ho
            rw [ho] at hyc
            exact absurd hu hyc
          · obtain ⟨i, hi⟩ := ih (y.id :: used) hrest (List.mem_cons_of_mem _ hu)
            exact ⟨i, by simp [check_dev_inspect_loop, hoo, hyim, hyc, hi]⟩

theorem check_dev_inspect_loop_dup_error (a b : ObjectReadResult) (x y : Object)
    (ha : a.as_object = some x) (hb : b.as_object = some y)
    (hxim : x.is_immutable = false) (hyim : y.is_immutable = false) (hid : x.id = y.id) :
    ∀ (l₁ : InputObjects) (used : List SuiAddress) (l₂ l₃ : InputObjects),
      ∃ i, check_dev_inspect_loop used (l₁ ++ a :: (l₂ ++ b :: l₃)) =
        .error (.user (.MutableObjectUsedMoreThanOnce i)) := by
  intro l₁
  induction l₁ with
  | nil =>
    intro used l₂ l₃
    by_cases hc : x.id ∈ used
    · exact ⟨x.id, by simp [check_dev_inspect_loop, ha, hxim, hc]⟩
    · obtain ⟨i, hi⟩ := check_dev_inspect_loop_mem_error b y hb hyim (l₂ ++ b :: l₃)
        (x.id :: used) (by simp) (by simp [hid])
      exact ⟨i, by simp [check_dev_inspect_loop, ha, hxim, hc, hi]⟩
  | cons o l₁ ih =>
    intro used l₂ l₃
    cases hoo : o.as_object with
    | none =>
      obtain ⟨i, hi⟩ := ih used l₂ l₃
      exact ⟨i, by simp [check_dev_inspect_loop, hoo, hi]⟩
    | some z =>
      by_cases hzim : z.is_immutable = true
      · obtain ⟨i, hi⟩ := ih used l₂ l₃
        exact ⟨i, by simp [check_dev_inspect_loop, hoo, hzim, hi]⟩
      · by_cases hzc : z.id ∈ used
        · exact ⟨z.id, by simp [check_dev_inspect_loop, hoo, hzim, hzc]⟩
        · obtain ⟨i, hi⟩ := ih (z.id :: used) l₂ l₃
          exact ⟨i, by simp [check_dev_inspect_loop, hoo, hzim, hzc, hi]⟩

theorem meter_modules_ok (l : List Nat) :
    ∀ (r : Nat), l.sum ≤ r → meter_modules r l = .ok (r - l.sum) := by
  induction l with
  | nil => intro r _; simp [meter_modules]
  | cons m rest ih =>
    intro r h
    rw [List.sum_cons] at h
    have hm : m ≤ r := by omega
    have hrest : rest.sum ≤ r - m := by omega
    have := ih (r - m) hrest
    simp only [meter_modules, meter_module_bytes, if_pos hm, this]
    congr 1
    rw [List.sum_cons]
    omega

theorem meter_modules_err (l : List Nat) :
    ∀ (r : Nat), r < l.sum →
      meter_modules r l = .error "verification meter budget exceeded" := by
  induction l with
  | nil => intro r h; simp at h
  | cons m rest ih =>
    intro r h
    rw [List.sum_cons] at h
    by_cases hm : m ≤ r
    · have : r - m < rest.sum := by omega
      simp [meter_modules, meter_module_bytes, hm, ih (r - m) this]
    · simp [meter_modules, meter_module_bytes, hm]

theorem resolve_gas_objects_present (objects : InputObjects) :
    ∀ (gas : List ObjectRef), (∀ r ∈ gas, (objects_by_id objects r.1).isSome) →
      ∃ l, resolve_gas_objects objects gas = .ok l := by
  intro gas
  induction gas with
  | nil => intro _; exact ⟨[], rfl⟩
  | cons r rest ih =>
    rcases r with ⟨rid, rv, rd⟩
    intro h
    obtain ⟨o, ho⟩ := Option.isSome_iff_exists.mp (h (rid, rv, rd) (by simp))
    obtain ⟨t, ht⟩ := ih fun q hq => h q (by simp [hq])
    exact ⟨o :: t, by simp [resolve_gas_objects, ho, ht]⟩

theorem resolve_gas_objects_ids (objects : InputObjects) :
    ∀ (gas gas' : List ObjectRef),
      gas.map (fun r => r.1) = gas'.map (fun r => r.1) →
      (∀ r ∈ gas, (objects_by_id objects r.1).isSome) →
      resolve_gas_objects objects gas = resolve_gas_objects objects gas' := by
  intro gas
  induction gas with
  | nil =>
    intro gas' hmap _
    cases gas' with
    | nil => rfl
    | cons q rest' => simp at hmap
  | cons r rest ih =>
    intro gas' hmap hpres
    cases gas' with
    | nil => simp at hmap
    | cons q rest' =>
      rcases r with ⟨rid, rv, rd⟩
      rcases q with ⟨qid, qv, qd⟩
      simp only [List.map_cons, List.cons.injEq] at hmap
      obtain ⟨hid, hrest⟩ := hmap
      obtain ⟨o, ho⟩ := Option.isSome_iff_exists.mp (hpres (rid, rv, rd) (by simp))
      have hrec := ih rest' hrest fun p hp => hpres p (by simp [hp])
      simp [resolve_gas_objects, ← hid, ho, hrec]

theorem resolve_gas_objects_error (objects : InputObjects) :
    ∀ (gas : List ObjectRef) (e : CheckError),
      resolve_gas_objects objects gas = .error e →
      ∃ oid v d, e = .user (.ObjectNotFound oid (some v)) ∧ (oid, v, d) ∈ gas ∧
        objects_by_id objects oid = none := by
  intro gas
  induction gas with
  | nil => intro e h; cases h
  | cons r rest ih =>
    intro e h
    rcases r with ⟨rid, rv, rd⟩
    simp only [resolve_gas_objects] at h
    cases ho : objects_by_id objects rid with
    | none =>
      rw [ho] at h
      injection h with h
      exact ⟨rid, rv, rd, h.symm, by simp, ho⟩
    | some o =>
      rw [ho] at h
      cases hrec : resolve_gas_objects objects rest with
      | error e' =>
        rw [hrec] at h
        injection h with h
        obtain ⟨oid, v, d, he, hmem, hnone⟩ := ih e' hrec
        exact ⟨oid, v, d, by rw [← h]; exact he, by simp [hmem], hnone⟩
      | ok t => rw [hrec] at h; cases h

theorem SuiGasStatus.new_not_object_not_found (gas_budget gas_price reference_gas_price : Nat)
    (protocol_config : ProtocolConfig) (oid : ObjectID) (ov : Option SequenceNumber) :
    SuiGasStatus.new gas_budget gas_price reference_gas_price protocol_config ≠
      .error (.user (.ObjectNotFound oid ov)) := by
  simp only [SuiGasStatus.new]
  split
  · simp
  · split
    · simp
    · split
      · simp
      · split <;> simp

/-! ## Claim theorems -/

/-- C2. In `check_one_object` for an `ImmOrOwnedMoveObject` input with a present
(non-package) object and a declared version below the sentinel, a fetched object
version differing from the declared one is reported on the fatal
internal-invariant channel (never as a user error), whereas a fetched digest
differing from the declared digest is the user error `InvalidObjectDigest`. -/
theorem imm_owned_version_fatal_digest_user
    (owner : SuiAddress) (object_id : ObjectID) (sequence_number : SequenceNumber)
    (object_digest : ObjectDigest) (object : Object) (system_transaction : Bool)
    (hpkg : object.is_package = false) (hsn : sequence_number < SequenceNumber.MAX) :
    (object.version ≠ sequence_number →
      check_one_object owner (.ImmOrOwnedMoveObject (object_id, sequence_number, object_digest))
        object system_transaction =
        .error (.fatal "The fetched object version does not match the requested version")) ∧
    (object.version = sequence_number → object.digest ≠ object_digest →
      check_one_object owner (.ImmOrOwnedMoveObject (object_id, sequence_number, object_digest))
        object system_transaction =
        .error (.user (.InvalidObjectDigest object_id object.digest))) := by
  constructor
  · intro hv
    simp [check_one_object, hpkg, hsn, hv]
  · intro hv hd
    simp [check_one_object, hpkg, hsn, hv, hd]

/-- Witness for C2 at concrete inputs. -/
theorem imm_owned_version_fatal_digest_user_witness :
    check_one_object 1 (.ImmOrOwnedMoveObject (5, 3, 9))
      ⟨5, 4, 9, .AddressOwner 1, false, 0⟩ false =
      .error (.fatal "The fetched object version does not match the requested version") ∧
    check_one_object 1 (.ImmOrOwnedMoveObject (5, 4, 9))
      ⟨5, 4, 8, .AddressOwner 1, false, 0⟩ false =
      .error (.user (.InvalidObjectDigest 5 8)) := by
  constructor
  · exact (imm_owned_version_fatal_digest_user 1 5 3 9 ⟨5, 4, 9, .AddressOwner 1, false, 0⟩
      false (by decide) (by decide)).1 (by decide)
  · exact (imm_owned_version_fatal_digest_user 1 5 4 9 ⟨5, 4, 8, .AddressOwner 1, false, 0⟩
      false (by decide) (by decide)).2 (by decide) (by decide)

/-- C3. Every input set whose count exceeds `max_input_objects` is rejected by
`check_input_objects` with the size-limit error, and on the signing path every
combined input-plus-receiving count exceeding that limit is rejected by
`check_receiving_objects` with the size-limit error, regardless of content. -/
theorem size_limit_rejects_oversized_inputs :
    (∀ (objects : InputObjects) (cfg : ProtocolConfig),
      cfg.max_input_objects < objects.length →
      check_input_objects objects cfg =
        .error (.user (.SizeLimitExceeded "maximum input objects in a transaction"
          (toString cfg.max_input_objects)))) ∧
    (∀ (store : Store) (receiving : List ObjectRef) (inputs : InputObjects)
        (cfg : ProtocolConfig) (epoch : EpochId),
      cfg.max_input_objects < receiving.length + inputs.length →
      check_receiving_objects store receiving inputs cfg epoch =
        .error (.user (.SizeLimitExceeded
          "maximum input and receiving objects in a transaction"
          (toString cfg.max_input_objects)))) := by
  constructor
  · intro objects cfg h
    rw [check_input_objects, if_neg (by omega)]
  · intro store receiving inputs cfg epoch h
    rw [check_receiving_objects, if_pos (by omega)]

/-- Witness for C3 at concrete inputs (limit 0, one input / one receiving ref). -/
theorem size_limit_rejects_oversized_inputs_witness :
    check_input_objects [⟨.MovePackage 1, .object ⟨1, 1, 1, .Immutable, true, 0⟩⟩]
      ⟨0, 1000, 1000000, 0, 5⟩ =
      .error (.user (.SizeLimitExceeded "maximum input objects in a transaction"
        (toString (0 : Nat)))) ∧
    check_receiving_objects ⟨fun _ => none, fun _ _ _ => false⟩ [(1, 1, 1)] []
      ⟨0, 1000, 1000000, 0, 5⟩ 0 =
      .error (.user (.SizeLimitExceeded
        "maximum input and receiving objects in a transaction" (toString (0 : Nat)))) := by
  constructor
  · exact size_limit_rejects_oversized_inputs.1 _ ⟨0, 1000, 1000000, 0, 5⟩ (by decide)
  · exact size_limit_rejects_oversized_inputs.2 ⟨fun _ => none, fun _ _ _ => false⟩
      [(1, 1, 1)] [] ⟨0, 1000, 1000000, 0, 5⟩ 0 (by decide)

/-- C5. For every system transaction, `check_gas` (and hence `get_gas_status`)
returns the unmetered gas status immediately: the result does not depend on the
declared gas-coin list, the budget, the price, the loaded objects or the
protocol configuration, so no balance check is performed and neither the budget
nor the gas list is read. -/
theorem system_tx_gas_unmetered :
    (∀ (objects : InputObjects) (cfg : ProtocolConfig) (rgp : Nat) (gas : List ObjectRef)
        (gas_budget gas_price : Nat) (tx_kind : TransactionKind),
      tx_kind.is_system_tx = true →
      check_gas objects cfg rgp gas gas_budget gas_price tx_kind =
        .ok SuiGasStatus.new_unmetered) ∧
    (∀ (objects : InputObjects) (gas : List ObjectRef) (cfg : ProtocolConfig) (rgp : Nat)
        (transaction : TransactionData),
      transaction.is_system_tx = true →
      get_gas_status objects gas cfg rgp transaction = .ok SuiGasStatus.new_unmetered) := by
  constructor
  · intro objects cfg rgp gas gas_budget gas_price tx_kind h
    simp [check_gas, h]
  · intro objects gas cfg rgp transaction h
    simp [get_gas_status, check_gas, TransactionData.is_system_tx] at h ⊢
    simp [h]

/-- Witness for C5: a system transaction with an empty gas-coin list and a
nonzero budget still gets the unmetered status. -/
theorem system_tx_gas_unmetered_witness :
    check_gas [] ⟨4, 1000, 1000000, 0, 5⟩ 1 [] 12345 1 .Genesis =
      .ok SuiGasStatus.new_unmetered ∧
    get_gas_status [] [] ⟨4, 1000, 1000000, 0, 5⟩ 1 ⟨.Genesis, 1, ⟨[], 1, 1, 12345⟩⟩ =
      .ok SuiGasStatus.new_unmetered := by
  constructor
  · exact system_tx_gas_unmetered.1 [] ⟨4, 1000, 1000000, 0, 5⟩ 1 [] 12345 1 .Genesis
      (by decide)
  · exact system_tx_gas_unmetered.2 [] [] ⟨4, 1000, 1000000, 0, 5⟩ 1
      ⟨.Genesis, 1, ⟨[], 1, 1, 12345⟩⟩ (by decide)

/-- C7. The Clock and AuthenticatorState singletons are gated to system
transactions in `check_one_object`: in a non-system transaction the mutable
Clock declaration is rejected with the immutable-parameter-expected error and
any shared AuthenticatorState declaration with the inaccessible-system-object
error, while a system transaction passes both, whatever the object snapshot. -/
theorem singleton_shared_inputs_gated_to_system_tx
    (owner : SuiAddress) (object : Object) :
    (check_one_object owner
        (.SharedMoveObject SUI_CLOCK_OBJECT_ID SUI_CLOCK_OBJECT_SHARED_VERSION true)
        object false =
      .error (.user (.ImmutableParameterExpectedError SUI_CLOCK_OBJECT_ID))) ∧
    (∀ (initial_shared_version : SequenceNumber) (mutable : Bool),
      check_one_object owner
        (.SharedMoveObject SUI_AUTHENTICATOR_STATE_OBJECT_ID initial_shared_version mutable)
        object false =
      .error (.user (.InaccessibleSystemObject SUI_AUTHENTICATOR_STATE_OBJECT_ID))) ∧
    (check_one_object owner
        (.SharedMoveObject SUI_CLOCK_OBJECT_ID SUI_CLOCK_OBJECT_SHARED_VERSION true)
        object true = .ok ()) ∧
    (∀ (initial_shared_version : SequenceNumber) (mutable : Bool),
      check_one_object owner
        (.SharedMoveObject SUI_AUTHENTICATOR_STATE_OBJECT_ID initial_shared_version mutable)
        object true = .ok ()) := by
  refine ⟨?_, fun isv mt => ?_, ?_, fun isv mt => ?_⟩ <;>
    simp [check_one_object, SUI_CLOCK_OBJECT_ID, SUI_AUTHENTICATOR_STATE_OBJECT_ID,
      SUI_CLOCK_OBJECT_SHARED_VERSION]

theorem check_one_object_shared_mismatch_ne_ok (owner : SuiAddress)
    (id : ObjectID) (isv : SequenceNumber) (mt : Bool) (obj : Object)
    (sys : Bool) (actual : SequenceNumber)
    (hown : obj.owner = .Shared actual) (hne : isv ≠ actual)
    (hexc : ¬ (sys = true ∧ (id = SUI_AUTHENTICATOR_STATE_OBJECT_ID ∨
      (id = SUI_CLOCK_OBJECT_ID ∧ isv = SUI_CLOCK_OBJECT_SHARED_VERSION ∧ mt = true)))) :
    check_one_object owner (.SharedMoveObject id isv mt) obj sys ≠ .ok () := by
  simp only [check_one_object]
  by_cases h1 : id = SUI_CLOCK_OBJECT_ID ∧ isv = SUI_CLOCK_OBJECT_SHARED_VERSION ∧ mt = true
  · have hs : sys = false := by
      cases sys with
      | false => rfl
      | true => exact absurd ⟨rfl, .inr h1⟩ hexc
    simp [h1, hs]
  · rw [if_neg h1]
    by_cases h2 : id = SUI_AUTHENTICATOR_STATE_OBJECT_ID
    · have hs : sys = false := by
        cases sys with
        | false => rfl
        | true => exact absurd ⟨rfl, .inl h2⟩ hexc
      simp [h2, hs]
    · rw [if_neg h2]
      by_cases h3 : obj.version < SequenceNumber.MAX
      · simp [h3, hown, hne]
      · simp [h3]

/-- C1, counterexample. The claim as stated fails on the code: a system
transaction passing a present shared input declared with the
AuthenticatorState singleton id and declared initial shared version 5, while
the object's actual initial shared version is 7, is accepted by
`check_objects` (the AuthenticatorState arm returns success for system
transactions before any version comparison). -/
theorem system_singleton_version_mismatch_accepted :
    (Object.owner ⟨7, 3, 0, .Shared 7, false, 0⟩ = .Shared 7) ∧ (5 : Nat) ≠ 7 ∧
    TransactionData.is_system_tx ⟨.ConsensusCommitPrologue, 1, ⟨[], 1, 1, 0⟩⟩ = true ∧
    check_objects ⟨.ConsensusCommitPrologue, 1, ⟨[], 1, 1, 0⟩⟩
      [⟨.SharedMoveObject SUI_AUTHENTICATOR_STATE_OBJECT_ID 5 false,
        .object ⟨7, 3, 0, .Shared 7, false, 0⟩⟩] = .ok () := by
  refine ⟨rfl, by decide, rfl, ?_⟩
  rfl

/-- C1, amended. For every transaction whose resolved input set contains a
present shared-object input whose declared `initial_shared_version` differs
from the object's actual initial-shared-version, `check_objects` rejects the
transaction, independent of the other inputs — except when the transaction is
a system transaction and the input is declared either with the
AuthenticatorState singleton id or as the mutable Clock singleton at its fixed
initial shared version, which system transactions may pass without the version
comparison. -/
theorem shared_version_mismatch_rejected (tx : TransactionData) (objects : InputObjects)
    (id : ObjectID) (isv : SequenceNumber) (mt : Bool) (obj : Object)
    (actual : SequenceNumber)
    (hmem : (⟨.SharedMoveObject id isv mt, .object obj⟩ : ObjectReadResult) ∈ objects)
    (hown : obj.owner = .Shared actual) (hne : isv ≠ actual)
    (hexc : ¬ (tx.is_system_tx = true ∧ (id = SUI_AUTHENTICATOR_STATE_OBJECT_ID ∨
      (id = SUI_CLOCK_OBJECT_ID ∧ isv = SUI_CLOCK_OBJECT_SHARED_VERSION ∧ mt = true)))) :
    ∃ e, check_objects tx objects = .error e := by
  cases hres : check_objects tx objects with
  | error e => exact ⟨e, rfl⟩
  | ok u =>
    cases u
    have heach := check_objects_ok_each tx objects hres
    have hone := check_each_object_ok tx objects heach
      ⟨.SharedMoveObject id isv mt, .object obj⟩ hmem obj rfl
    exact absurd hone
      (check_one_object_shared_mismatch_ne_ok _ id isv mt obj tx.is_system_tx actual
        hown hne hexc)

/-- Witness for the amended C1 at a concrete non-system transaction with one
mismatched shared input. -/
theorem shared_version_mismatch_rejected_witness :
    ∃ e, check_objects ⟨.ProgrammableTransaction ⟨[]⟩, 1, ⟨[], 1, 1, 0⟩⟩
      [⟨.SharedMoveObject 9 5 true, .object ⟨9, 3, 0, .Shared 7, false, 0⟩⟩] = .error e := by
  exact shared_version_mismatch_rejected ⟨.ProgrammableTransaction ⟨[]⟩, 1, ⟨[], 1, 1, 0⟩⟩
    [⟨.SharedMoveObject 9 5 true, .object ⟨9, 3, 0, .Shared 7, false, 0⟩⟩]
    9 5 true ⟨9, 3, 0, .Shared 7, false, 0⟩ 7 (by decide) rfl (by decide) (by decide)

/-- C4. Referencing the same mutable object id more than once is rejected:
two mutable entries with one id anywhere in the input set make `check_objects`
fail with the mutable-object-reused error; an id shared between the input set
and the receiving set makes `check_receiving_objects` fail (with the
duplicate-reference error when every receiving reference passes its own
freshness checks and the size limit holds), and so does an id occurring twice
in the receiving set. -/
theorem duplicate_mutable_ids_rejected :
    (∀ (tx : TransactionData) (l₁ l₂ l₃ : InputObjects) (a b : ObjectReadResult),
      a.is_mutable = true → b.is_mutable = true → a.id = b.id →
      ∃ i, check_objects tx (l₁ ++ a :: (l₂ ++ b :: l₃)) =
        .error (.user (.MutableObjectUsedMoreThanOnce i))) ∧
    (∀ (store : Store) (receiving : List ObjectRef) (inputs : InputObjects)
        (cfg : ProtocolConfig) (epoch : EpochId) (r : ObjectRef) (o : ObjectReadResult),
      r ∈ receiving → o ∈ inputs → o.id = r.1 →
      ∃ e, check_receiving_objects store receiving inputs cfg epoch = .error e) ∧
    (∀ (store : Store) (receiving : List ObjectRef) (inputs : InputObjects)
        (cfg : ProtocolConfig) (epoch : EpochId) (r : ObjectRef) (o : ObjectReadResult),
      receiving.length + inputs.length ≤ cfg.max_input_objects →
      (∀ q ∈ receiving, check_one_receiving store epoch q = .ok ()) →
      r ∈ receiving → o ∈ inputs → o.id = r.1 →
      check_receiving_objects store receiving inputs cfg epoch =
        .error (.user .DuplicateObjectRefInput)) ∧
    (∀ (store : Store) (inputs : InputObjects) (cfg : ProtocolConfig) (epoch : EpochId)
        (l₁ l₂ l₃ : List ObjectRef) (a b : ObjectRef),
      a.1 = b.1 →
      ∃ e, check_receiving_objects store (l₁ ++ a :: (l₂ ++ b :: l₃)) inputs cfg epoch =
        .error e) := by
  refine ⟨?_, ?_, ?_, ?_⟩
  · intro tx l₁ l₂ l₃ a b hma hmb hid
    obtain ⟨i, hi⟩ := check_mutable_once_dup_error a b hma hmb hid l₁ [] l₂ l₃
    exact ⟨i, check_objects_of_mutable_once_error tx _ _ hi⟩
  · intro store receiving inputs cfg epoch r o hr ho hid
    by_cases hsize : receiving.length + inputs.length ≤ cfg.max_input_objects
    · have hmem : r.1 ∈ inputs.map fun p => p.input_object_kind.object_id := by
        rw [← hid]
        exact List.mem_map_of_mem _ ho
      obtain ⟨e, he⟩ := check_receiving_loop_error_of_mem_seen store epoch receiving
        (inputs.map fun p => p.input_object_kind.object_id) r hr hmem
      exact ⟨e, by rw [check_receiving_objects, if_neg (by omega)]; exact he⟩
    · exact ⟨_, by rw [check_receiving_objects, if_pos (by omega)]⟩
  · intro store receiving inputs cfg epoch r o hsize hok hr ho hid
    have hmem : r.1 ∈ inputs.map fun p => p.input_object_kind.object_id := by
      rw [← hid]
      exact List.mem_map_of_mem _ ho
    rw [check_receiving_objects, if_neg (by omega)]
    exact check_receiving_loop_dup_exact store epoch receiving _ r hok hr hmem
  · intro store inputs cfg epoch l₁ l₂ l₃ a b hid
    by_cases hsize :
        (l₁ ++ a :: (l₂ ++ b :: l₃)).length + inputs.length ≤ cfg.max_input_objects
    · obtain ⟨e, he⟩ := check_receiving_loop_pair_error store epoch a b hid l₁
        (inputs.map fun p => p.input_object_kind.object_id) l₂ l₃
      exact ⟨e, by rw [check_receiving_objects, if_neg (by omega)]; exact he⟩
    · exact ⟨_, by rw [check_receiving_objects, if_pos (by omega)]⟩

/-- Witness for C4 at concrete inputs: one owned object used twice; a
receiving ref whose id is also an input id; a receiving id repeated. -/
theorem duplicate_mutable_ids_rejected_witness :
    (∃ i, check_objects ⟨.ProgrammableTransaction ⟨[]⟩, 1, ⟨[], 1, 1, 0⟩⟩
      [⟨.ImmOrOwnedMoveObject (2, 1, 1), .object ⟨2, 1, 1, .AddressOwner 1, false, 0⟩⟩,
       ⟨.ImmOrOwnedMoveObject (2, 1, 1), .object ⟨2, 1, 1, .AddressOwner 1, false, 0⟩⟩] =
        .error (.user (.MutableObjectUsedMoreThanOnce i))) ∧
    (∃ e, check_receiving_objects ⟨fun _ => none, fun _ _ _ => false⟩ [(2, 1, 1)]
      [⟨.ImmOrOwnedMoveObject (2, 1, 1), .object ⟨2, 1, 1, .AddressOwner 1, false, 0⟩⟩]
      ⟨4, 1000, 1000000, 0, 5⟩ 0 = .error e) ∧
    (check_receiving_objects ⟨fun _ => none, fun _ _ _ => true⟩ [(2, 1, 1)]
      [⟨.ImmOrOwnedMoveObject (2, 1, 1), .object ⟨2, 1, 1, .AddressOwner 1, false, 0⟩⟩]
      ⟨4, 1000, 1000000, 0, 5⟩ 0 = .error (.user .DuplicateObjectRefInput)) ∧
    (∃ e, check_receiving_objects ⟨fun _ => none, fun _ _ _ => true⟩ [(3, 1, 1), (3, 2, 2)]
      [] ⟨4, 1000, 1000000, 0, 5⟩ 0 = .error e) := by
  refine ⟨?_, ?_, ?_, ?_⟩
  · exact duplicate_mutable_ids_rejected.1 ⟨.ProgrammableTransaction ⟨[]⟩, 1, ⟨[], 1, 1, 0⟩⟩
      [] [] []
      ⟨.ImmOrOwnedMoveObject (2, 1, 1), .object ⟨2, 1, 1, .AddressOwner 1, false, 0⟩⟩
      ⟨.ImmOrOwnedMoveObject (2, 1, 1), .object ⟨2, 1, 1, .AddressOwner 1, false, 0⟩⟩
      (by decide) (by decide) (by decide)
  · exact duplicate_mutable_ids_rejected.2.1 ⟨fun _ => none, fun _ _ _ => false⟩
      [(2, 1, 1)]
      [⟨.ImmOrOwnedMoveObject (2, 1, 1), .object ⟨2, 1, 1, .AddressOwner 1, false, 0⟩⟩]
      ⟨4, 1000, 1000000, 0, 5⟩ 0 (2, 1, 1)
      ⟨.ImmOrOwnedMoveObject (2, 1, 1), .object ⟨2, 1, 1, .AddressOwner 1, false, 0⟩⟩
      (by decide) (by decide) (by decide)
  · exact duplicate_mutable_ids_rejected.2.2.1 ⟨fun _ => none, fun _ _ _ => true⟩
      [(2, 1, 1)]
      [⟨.ImmOrOwnedMoveObject (2, 1, 1), .object ⟨2, 1, 1, .AddressOwner 1, false, 0⟩⟩]
      ⟨4, 1000, 1000000, 0, 5⟩ 0 (2, 1, 1)
      ⟨.ImmOrOwnedMoveObject (2, 1, 1), .object ⟨2, 1, 1, .AddressOwner 1, false, 0⟩⟩
      (by decide) (by intro q hq; simp at hq; subst hq; rfl) (by decide) (by decide)
      (by decide)
  · exact duplicate_mutable_ids_rejected.2.2.2 ⟨fun _ => none, fun _ _ _ => true⟩
      [] ⟨4, 1000, 1000000, 0, 5⟩ 0 [] [] [] (3, 1, 1) (3, 2, 2) (by decide)

/-- C6, counterexample. The claim as stated fails on the code: with the live
object absent and the marker store reporting the reference received at exactly
the declared version, `check_receiving_objects` still rejects a reference whose
declared version is the reserved sentinel `SequenceNumber.MAX` — the sentinel
bound is checked before the marker store is consulted. -/
theorem replay_marker_max_version_rejected :
    Store.get_object ⟨fun _ => none, fun _ _ _ => true⟩ 0 = none ∧
    Store.have_received_object_at_version ⟨fun _ => none, fun _ _ _ => true⟩ 0
      SequenceNumber.MAX 0 = true ∧
    check_receiving_objects ⟨fun _ => none, fun _ _ _ => true⟩ [(0, SequenceNumber.MAX, 0)]
      [] ⟨4, 1000, 1000000, 0, 5⟩ 0 = .error (.user .InvalidSequenceNumber) := by
  refine ⟨rfl, rfl, ?_⟩
  rfl

/-- C6, amended. A receiving reference whose declared version is below the
reserved sentinel, whose live object no longer exists, and which the marker
store reports as already received at exactly that version in the given epoch,
passes its per-reference check for every declared digest, and the verdict of
`check_receiving_objects` does not depend on that reference's declared digest. -/
theorem replay_marker_accepts_missing_object (store : Store) (epoch : EpochId)
    (id : ObjectID) (v : SequenceNumber)
    (hv : v < SequenceNumber.MAX) (hget : store.get_object id = none)
    (hrecv : store.have_received_object_at_version id v epoch = true) :
    (∀ d, check_one_receiving store epoch (id, v, d) = .ok ()) ∧
    (∀ (pre post : List ObjectRef) (inputs : InputObjects) (cfg : ProtocolConfig)
        (d d' : ObjectDigest),
      check_receiving_objects store (pre ++ (id, v, d) :: post) inputs cfg epoch =
        check_receiving_objects store (pre ++ (id, v, d') :: post) inputs cfg epoch) := by
  have hone : ∀ d, check_one_receiving store epoch (id, v, d) = .ok () := by
    intro d
    simp [check_one_receiving, hv, hget, hrecv]
  refine ⟨hone, ?_⟩
  intro pre post inputs cfg d d'
  have hlen : (pre ++ (id, v, d) :: post).length = (pre ++ (id, v, d') :: post).length := by
    simp
  simp only [check_receiving_objects]
  rw [← hlen]
  split
  · rfl
  · exact check_receiving_loop_digest_irrelevant store epoch id v d d' hone pre _ post

/-- Witness for the amended C6 at a concrete store with no live object and a
positive replay marker. -/
theorem replay_marker_accepts_missing_object_witness :
    check_one_receiving ⟨fun _ => none, fun _ _ _ => true⟩ 0 (0, 1, 99) = .ok () ∧
    check_receiving_objects ⟨fun _ => none, fun _ _ _ => true⟩ [(0, 1, 5)] []
      ⟨4, 1000, 1000000, 0, 5⟩ 0 =
      check_receiving_objects ⟨fun _ => none, fun _ _ _ => true⟩ [(0, 1, 6)] []
        ⟨4, 1000, 1000000, 0, 5⟩ 0 := by
  constructor
  · exact (replay_marker_accepts_missing_object ⟨fun _ => none, fun _ _ _ => true⟩ 0 0 1
      (by decide) rfl rfl).1 99
  · have := (replay_marker_accepts_missing_object ⟨fun _ => none, fun _ _ _ => true⟩ 0 0 1
      (by decide) rfl rfl).2 [] [] [] ⟨4, 1000, 1000000, 0, 5⟩ 5 6
    simpa using this

/-- C8. `check_dev_inspect_input` rejects a system transaction kind as
unsupported before any object checks (the verdict is independent of the input
objects), and two inputs referencing the same mutable object id make it fail
with the mutable-object-reused error for every supplied gas object — appending
the gas object afterwards cannot mask the failure. -/
theorem dev_inspect_rejects_system_and_duplicates :
    (∀ (validity_check : ProtocolConfig → TransactionKind → Except CheckError Unit)
        (config : ProtocolConfig) (kind : TransactionKind) (input_objects : InputObjects)
        (gas_object : Object),
      validity_check config kind = .ok () → kind.is_system_tx = true →
      check_dev_inspect_input validity_check config kind input_objects gas_object =
        .error (.user (.Unsupported "Transaction kind is not supported in dev-inspect"))) ∧
    (∀ (validity_check : ProtocolConfig → TransactionKind → Except CheckError Unit)
        (config : ProtocolConfig) (kind : TransactionKind) (l₁ l₂ l₃ : InputObjects)
        (a b : ObjectReadResult) (x y : Object) (gas_object : Object),
      validity_check config kind = .ok () → kind.is_system_tx = false →
      (l₁ ++ a :: (l₂ ++ b :: l₃)).length ≤ config.max_input_objects →
      a.as_object = some x → b.as_object = some y →
      x.is_immutable = false → y.is_immutable = false → x.id = y.id →
      ∃ i, check_dev_inspect_input validity_check config kind (l₁ ++ a :: (l₂ ++ b :: l₃))
        gas_object = .error (.user (.MutableObjectUsedMoreThanOnce i))) := by
  constructor
  · intro vc config kind objs gas hv hs
    simp [check_dev_inspect_input, hv, hs]
  · intro vc config kind l₁ l₂ l₃ a b x y gas hv hs hlen ha hb hx hy hid
    obtain ⟨i, hi⟩ := check_dev_inspect_loop_dup_error a b x y ha hb hx hy hid l₁ [] l₂ l₃
    refine ⟨i, ?_⟩
    have hco : check_input_objects (l₁ ++ a :: (l₂ ++ b :: l₃)) config = .ok () := by
      rw [check_input_objects, if_pos hlen]
    simp [check_dev_inspect_input, hv, hs, hco, hi]

/-- Witness for C8: a system kind rejected whatever the inputs; a duplicate
mutable id rejected whatever the gas object. -/
theorem dev_inspect_rejects_system_and_duplicates_witness :
    check_dev_inspect_input (fun _ _ => .ok ()) ⟨4, 1000, 1000000, 0, 5⟩ .Genesis
      [] ⟨1, 1, 1, .AddressOwner 1, false, 0⟩ =
      .error (.user (.Unsupported "Transaction kind is not supported in dev-inspect")) ∧
    (∃ i, check_dev_inspect_input (fun _ _ => .ok ()) ⟨4, 1000, 1000000, 0, 5⟩
      (.ProgrammableTransaction ⟨[]⟩)
      [⟨.ImmOrOwnedMoveObject (2, 1, 1), .object ⟨2, 1, 1, .AddressOwner 1, false, 0⟩⟩,
       ⟨.ImmOrOwnedMoveObject (2, 1, 1), .object ⟨2, 1, 1, .AddressOwner 1, false, 0⟩⟩]
      ⟨9, 1, 1, .AddressOwner 1, false, 0⟩ =
      .error (.user (.MutableObjectUsedMoreThanOnce i))) := by
  constructor
  · exact dev_inspect_rejects_system_and_duplicates.1 (fun _ _ => .ok ())
      ⟨4, 1000, 1000000, 0, 5⟩ .Genesis [] ⟨1, 1, 1, .AddressOwner 1, false, 0⟩ rfl
      (by decide)
  · exact dev_inspect_rejects_system_and_duplicates.2 (fun _ _ => .ok ())
      ⟨4, 1000, 1000000, 0, 5⟩ (.ProgrammableTransaction ⟨[]⟩) [] [] []
      ⟨.ImmOrOwnedMoveObject (2, 1, 1), .object ⟨2, 1, 1, .AddressOwner 1, false, 0⟩⟩
      ⟨.ImmOrOwnedMoveObject (2, 1, 1), .object ⟨2, 1, 1, .AddressOwner 1, false, 0⟩⟩
      ⟨2, 1, 1, .AddressOwner 1, false, 0⟩ ⟨2, 1, 1, .AddressOwner 1, false, 0⟩
      ⟨9, 1, 1, .AddressOwner 1, false, 0⟩ rfl (by decide) (by decide) rfl rfl
      (by decide) (by decide) (by decide)

/-- C9. The metering gate shares one cumulative budget across all modules of
the transaction: it is skipped (with no observation) for system transactions;
for a programmable transaction it succeeds with exactly one success
observation when the summed module costs fit the shared budget and fails with
the package-verification-timed-out error and exactly one timeout observation
when the sum exceeds it; the two observations are mutually exclusive in every
call. -/
theorem package_metering_shared_budget :
    (∀ (tx : TransactionData) (cfg : ProtocolConfig), tx.is_system_tx = true →
      check_non_system_packages_to_be_published tx cfg = (.ok (), ⟨0, 0⟩)) ∧
    (∀ (pt : ProgrammableTransaction) (sender : SuiAddress) (g : GasData)
        (cfg : ProtocolConfig),
      (pt.non_system_packages_to_be_published.sum ≤ cfg.max_verifier_meter_budget →
        check_non_system_packages_to_be_published
          ⟨.ProgrammableTransaction pt, sender, g⟩ cfg = (.ok (), ⟨1, 0⟩)) ∧
      (cfg.max_verifier_meter_budget < pt.non_system_packages_to_be_published.sum →
        check_non_system_packages_to_be_published
          ⟨.ProgrammableTransaction pt, sender, g⟩ cfg =
          (.error (.user (.PackageVerificationTimedout "verification meter budget exceeded")),
            ⟨0, 1⟩))) ∧
    (∀ (tx : TransactionData) (cfg : ProtocolConfig),
      (check_non_system_packages_to_be_published tx cfg).2.success_latency_observations = 0 ∨
      (check_non_system_packages_to_be_published tx cfg).2.timeout_latency_observations = 0) := by
  refine ⟨?_, ?_, ?_⟩
  · intro tx cfg h
    simp [check_non_system_packages_to_be_published, h]
  · intro pt sender g cfg
    constructor
    · intro h
      have hm := meter_modules_ok pt.non_system_packages_to_be_published
        cfg.max_verifier_meter_budget h
      simp [check_non_system_packages_to_be_published, TransactionData.is_system_tx,
        TransactionKind.is_system_tx, hm]
    · intro h
      have hm := meter_modules_err pt.non_system_packages_to_be_published
        cfg.max_verifier_meter_budget h
      simp [check_non_system_packages_to_be_published, TransactionData.is_system_tx,
        TransactionKind.is_system_tx, hm]
  · intro tx cfg
    by_cases h : tx.is_system_tx = true
    · left
      simp [check_non_system_packages_to_be_published, h]
    · simp only [check_non_system_packages_to_be_published, if_neg h]
      cases hk : tx.kind with
      | ProgrammableTransaction pt =>
        cases hm : meter_modules cfg.max_verifier_meter_budget
            pt.non_system_packages_to_be_published with
        | ok r => right; simp [hm]
        | error e => left; simp [hm]
      | Genesis => left; rfl
      | ConsensusCommitPrologue => left; rfl
      | ChangeEpoch => left; rfl

/-- Witness for C9: two modules of costs 3 and 4, each within the budget 5 but
jointly above it, time out with one timeout observation; a system transaction
skips the gate with no observation. -/
theorem package_metering_shared_budget_witness :
    (3 : Nat) ≤ 5 ∧ (4 : Nat) ≤ 5 ∧ (5 : Nat) < 3 + 4 ∧
    check_non_system_packages_to_be_published
      ⟨.ProgrammableTransaction ⟨[3, 4]⟩, 1, ⟨[], 1, 1, 0⟩⟩ ⟨4, 1000, 1000000, 0, 5⟩ =
      (.error (.user (.PackageVerificationTimedout "verification meter budget exceeded")),
        ⟨0, 1⟩) ∧
    check_non_system_packages_to_be_published ⟨.Genesis, 1, ⟨[], 1, 1, 0⟩⟩
      ⟨4, 1000, 1000000, 0, 5⟩ = (.ok (), ⟨0, 0⟩) := by
  refine ⟨by decide, by decide, by decide, ?_, ?_⟩
  · exact (package_metering_shared_budget.2.1 ⟨[3, 4]⟩ 1 ⟨[], 1, 1, 0⟩
      ⟨4, 1000, 1000000, 0, 5⟩).2 (by decide)
  · exact package_metering_shared_budget.1 ⟨.Genesis, 1, ⟨[], 1, 1, 0⟩⟩
      ⟨4, 1000, 1000000, 0, 5⟩ (by decide)

theorem check_gas_balance_error (l : List ObjectReadResult) (b : Nat) (e : CheckError)
    (h : check_gas_balance l b = .error e) : e = .user .GasBalanceTooLow := by
  simp only [check_gas_balance] at h
  split at h
  · cases h
  · injection h with h
    exact h.symm

/-- C10. In `check_gas` for a non-system transaction the declared gas refs are
resolved against the loaded inputs by id alone: with every id present the
verdict is unchanged by the refs' declared versions and digests (and the
resolution loop succeeds), and an object-not-found error can only arise from a
declared gas ref whose id is absent from the input map, reporting that ref's
declared version. -/
theorem gas_refs_resolved_by_id_only :
    (∀ (objects : InputObjects) (cfg : ProtocolConfig) (rgp : Nat)
        (gas gas' : List ObjectRef) (b p : Nat) (k : TransactionKind),
      gas.map (fun r => r.1) = gas'.map (fun r => r.1) →
      (∀ r ∈ gas, (objects_by_id objects r.1).isSome) →
      check_gas objects cfg rgp gas b p k = check_gas objects cfg rgp gas' b p k) ∧
    (∀ (objects : InputObjects) (gas : List ObjectRef),
      (∀ r ∈ gas, (objects_by_id objects r.1).isSome) →
      ∃ l, resolve_gas_objects objects gas = .ok l) ∧
    (∀ (objects : InputObjects) (cfg : ProtocolConfig) (rgp : Nat) (gas : List ObjectRef)
        (b p : Nat) (k : TransactionKind) (oid : ObjectID) (ov : Option SequenceNumber),
      check_gas objects cfg rgp gas b p k = .error (.user (.ObjectNotFound oid ov)) →
      objects_by_id objects oid = none ∧ ∃ v d, (oid, v, d) ∈ gas ∧ ov = some v) := by
  refine ⟨?_, ?_, ?_⟩
  · intro objects cfg rgp gas gas' b p k hmap hpres
    by_cases hk : k.is_system_tx = true
    · simp [check_gas, hk]
    · simp only [check_gas, if_neg hk]
      cases hn : SuiGasStatus.new b p rgp cfg with
      | error e => rfl
      | ok st => rw [resolve_gas_objects_ids objects gas gas' hmap hpres]
  · intro objects gas hpres
    exact resolve_gas_objects_present objects gas hpres
  · intro objects cfg rgp gas b p k oid ov h
    by_cases hk : k.is_system_tx = true
    · rw [check_gas, if_pos hk] at h
      cases h
    · rw [check_gas, if_neg hk] at h
      split at h
      · rename_i e hn
        injection h with h
        rw [h] at hn
        exact absurd hn (SuiGasStatus.new_not_object_not_found b p rgp cfg oid ov)
      · rename_i st hn
        split at h
        · rename_i e hr
          injection h with h
          obtain ⟨oid', v, d, he, hmem, hnone⟩ := resolve_gas_objects_error objects gas e hr
          rw [h] at he
          simp only [CheckError.user.injEq, UserInputError.ObjectNotFound.injEq] at he
          obtain ⟨hoid, hov⟩ := he
          subst hoid
          exact ⟨hnone, v, d, hmem, hov⟩
        · rename_i l hr
          split at h
          · rename_i e hb
            injection h with h
            rw [check_gas_balance_error l b e hb] at h
            cases h
          · cases h

/-- Witness for C10: a gas ref with wrong version and digest but a present id
resolves and yields the same verdict as the correct ref; a gas ref with an
absent id fails with object-not-found carrying its declared version. -/
theorem gas_refs_resolved_by_id_only_witness :
    check_gas [⟨.ImmOrOwnedMoveObject (1, 5, 9), .object ⟨1, 5, 9, .AddressOwner 1, false, 100⟩⟩]
        ⟨4, 1000, 1000000, 0, 5⟩ 1 [(1, 99, 88)] 10 1 (.ProgrammableTransaction ⟨[]⟩) =
      check_gas [⟨.ImmOrOwnedMoveObject (1, 5, 9), .object ⟨1, 5, 9, .AddressOwner 1, false, 100⟩⟩]
        ⟨4, 1000, 1000000, 0, 5⟩ 1 [(1, 5, 9)] 10 1 (.ProgrammableTransaction ⟨[]⟩) ∧
    (∃ l, resolve_gas_objects
      [⟨.ImmOrOwnedMoveObject (1, 5, 9), .object ⟨1, 5, 9, .AddressOwner 1, false, 100⟩⟩]
      [(1, 99, 88)] = .ok l) ∧
    (objects_by_id
        [⟨.ImmOrOwnedMoveObject (1, 5, 9), .object ⟨1, 5, 9, .AddressOwner 1, false, 100⟩⟩]
        2 = none ∧
      ∃ v d, ((2 : ObjectID), v, d) ∈ [((2 : ObjectID), (7 : SequenceNumber), (0 : ObjectDigest))] ∧
        (some (7 : SequenceNumber) : Option SequenceNumber) = some v) := by
  refine ⟨?_, ?_, ?_⟩
  · exact gas_refs_resolved_by_id_only.1
      [⟨.ImmOrOwnedMoveObject (1, 5, 9), .object ⟨1, 5, 9, .AddressOwner 1, false, 100⟩⟩]
      ⟨4, 1000, 1000000, 0, 5⟩ 1 [(1, 99, 88)] [(1, 5, 9)] 10 1
      (.ProgrammableTransaction ⟨[]⟩) (by decide) (by decide)
  · exact gas_refs_resolved_by_id_only.2.1
      [⟨.ImmOrOwnedMoveObject (1, 5, 9), .object ⟨1, 5, 9, .AddressOwner 1, false, 100⟩⟩]
      [(1, 99, 88)] (by decide)
  · exact gas_refs_resolved_by_id_only.2.2
      [⟨.ImmOrOwnedMoveObject (1, 5, 9), .object ⟨1, 5, 9, .AddressOwner 1, false, 100⟩⟩]
      ⟨4, 1000, 1000000, 0, 5⟩ 1 [(2, 7, 0)] 10 1 (.ProgrammableTransaction ⟨[]⟩) 2
      (some 7) (by rfl)

end SuiTx
